import Mathlib

/-!
Verification of `src/CitationSleuth.py` (class `PubMedCitationSleuth`).

The Python program talks to two HTTP endpoints (NCBI esearch and esummary),
builds one record per returned PubMed identifier and renders the records as a
markdown table.  We embed the program shallowly:

* requests.get either raises a transport exception or yields a response; the
  status code is carried along unread, exactly as the Python code never reads
  `response.status_code`.
* For the search call the program consumes response.json(); we model the
  parsed body (`none` stands for a body that is not valid JSON, on which
  json() raises).  The program only reads
  the esearchresult member and its idlist member, with defaults, so the body is
  modelled by those two optional components.
* For a detail call the program consumes BeautifulSoup applied to the body, and only queries soup.find for Item
  elements by their Name attribute; parsing never
  fails, so a detail body is modelled by the list of `Item` elements (each with
  its `Name` attribute and its text) in document order.
* Python exceptions are modelled by `Except`.
-/

set_option autoImplicit false

namespace CitationSleuth

/-- A query-string parameter value as passed to requests.get: the Python code
passes strings and the integer literal `20`. -/
inductive PV where
  | s (v : String)
  | n (v : Nat)
  deriving DecidableEq, Repr

/-- Outcome of one requests.get call: either the call itself raised a
transport exception, or a response arrived with a status code and a body.  The
Python code never inspects the status code. -/
inductive FetchResult (α : Type) where
  | transportError (e : String)
  | response (status : Nat) (body : α)
  deriving DecidableEq, Repr

/-- True when the HTTP call produced a response (of any status) rather than
raising a transport exception. -/
def FetchResult.isResponse {α : Type} : FetchResult α → Bool
  | .transportError _ => false
  | .response _ _ => true

/-- The body of a response, with a default for the transport-error case. -/
def FetchResult.bodyD {α : Type} (d : α) : FetchResult α → α
  | .transportError _ => d
  | .response _ b => b

/-- The `esearchresult` member of the search response JSON, as far as the
program reads it: reading idlist with default []. -/
structure EsearchResult where
  idlist : Option (List String)
  deriving DecidableEq, Repr

/-- The search response JSON, as far as the program reads it:
reading esearchresult with default, an empty dict. -/
structure SearchBody where
  esearchresult : Option EsearchResult
  deriving DecidableEq, Repr

/-- One `Item` element of an esummary XML response: its `Name` attribute and
its text. -/
structure XmlItem where
  name : String
  text : String
  deriving DecidableEq, Repr

/-- Exceptions the embedded code can raise: a transport exception from
requests.get, or the ValueError from response.json() on a body that is
not JSON. -/
inductive PyError where
  | transport (e : String)
  | jsonDecode
  deriving DecidableEq, Repr

/-- The external world: what each HTTP GET (url plus query parameters)
returns.  `esearch` bodies arrive JSON-parsed (`none` = not valid JSON, so
json() raises); `esummary` bodies arrive as the `Item` elements
BeautifulSoup finds (parsing itself never fails). -/
structure PubMedEnv where
  esearch : String → List (String × PV) → FetchResult (Option SearchBody)
  esummary : String → List (String × PV) → FetchResult (List XmlItem)

/-- Base URL of the search endpoint (`search_for_usages`, line 116). -/
def esearch_base_url : String :=
  "https://eutils.ncbi.nlm.nih.gov/entrez/eutils/esearch.fcgi"

/-- Base URL of the summary endpoint (`fetch_article_info`, line 146). -/
def esummary_base_url : String :=
  "https://eutils.ncbi.nlm.nih.gov/entrez/eutils/esummary.fcgi"

/-- The `params` dict of the search request (`search_for_usages`, lines
117-122). -/
def search_params (data_source : String) : List (String × PV) :=
  [("db", .s "pubmed"), ("term", .s data_source), ("retmode", .s "json"),
   ("retmax", .n 20)]

/-- The `params` dict of a detail request (`fetch_article_info`, lines
147-151). -/
def detail_params (article_id : String) : List (String × PV) :=
  [("db", .s "pubmed"), ("id", .s article_id), ("retmode", .s "xml")]

/-- The record `fetch_article_info` builds: a Python dict with five keys
(lines 161-167). -/
structure ArticleInfo where
  title : String
  publication_date : String
  doi : String
  pmc_ref_count : String
  pubmed_link : String
  deriving DecidableEq, Repr

/-- The dict `fetch_article_info` returns, as key/value pairs in insertion
order. -/
def ArticleInfo.toDict (a : ArticleInfo) : List (String × String) :=
  [("title", a.title), ("publication_date", a.publication_date),
   ("doi", a.doi), ("pmc_ref_count", a.pmc_ref_count),
   ("pubmed_link", a.pubmed_link)]

/-- Python truthiness of the dict returned by `fetch_article_info`: a dict is
truthy iff it is non-empty.  This is the guard the truthiness test of article_info on line
131. -/
def ArticleInfo.truthy (a : ArticleInfo) : Bool :=
  !a.toDict.isEmpty

/-- soup.find of an Item element by Name attribute: the first `Item` element whose
`Name` attribute equals `name`. -/
def findItem (items : List XmlItem) (name : String) : Option XmlItem :=
  items.find? (fun it => it.name == name)

/-- The expression `found.text when an Item with this Name exists, else the sentinel` (lines
155-158). -/
def fieldOr (items : List XmlItem) (name : String) : String :=
  match findItem items name with
  | some it => it.text
  | none => "N/A"

/-- The record built by `fetch_article_info` from the `Item` elements of a
detail response (lines 155-167). -/
def articleOf (article_id : String) (items : List XmlItem) : ArticleInfo :=
  { title := fieldOr items "Title"
    publication_date := fieldOr items "EPubDate"
    doi := fieldOr items "DOI"
    pmc_ref_count := fieldOr items "PmcRefCount"
    pubmed_link := "https://pubmed.ncbi.nlm.nih.gov/" ++ article_id ++ "/" }

/-- `PubMedCitationSleuth.fetch_article_info` (lines 136-167).  requests.get
raises only on transport failure; BeautifulSoup parses any bytes, so given any
response the function returns a record. -/
def fetch_article_info (env : PubMedEnv) (article_id : String) :
    Except PyError ArticleInfo :=
  match env.esummary esummary_base_url (detail_params article_id) with
  | .transportError e => .error (.transport e)
  | .response _ items => .ok (articleOf article_id items)

/-- the esearchresult member and its idlist member, with defaults (line
126). -/
def idsOf (body : SearchBody) : List String :=
  match body.esearchresult with
  | none => []
  | some es => (es.idlist).getD []

/-- The per-identifier loop of `search_for_usages` (lines
129-132): fetch each article, append it when the returned dict is truthy,
propagate any exception. -/
def fetchLoop (env : PubMedEnv) :
    List String → List ArticleInfo → Except PyError (List ArticleInfo)
  | [], articles => .ok articles
  | article_id :: rest, articles =>
    match fetch_article_info env article_id with
    | .error e => .error e
    | .ok article_info =>
      fetchLoop env rest
        (if article_info.truthy then articles ++ [article_info] else articles)

/-- `PubMedCitationSleuth.search_for_usages` (lines 106-134): one search GET,
response.json(), extraction of the id list, then the fetch loop. -/
def search_for_usages (env : PubMedEnv) (data_source : String) :
    Except PyError (List ArticleInfo) :=
  match env.esearch esearch_base_url (search_params data_source) with
  | .transportError e => .error (.transport e)
  | .response _ none => .error .jsonDecode
  | .response _ (some body) => fetchLoop env (idsOf body) []

/-- One data row of the markdown table, without its trailing newline
(line 183, the f-string). -/
def rowOf (r : ArticleInfo) : String :=
  "| " ++ r.title ++ " | " ++ r.publication_date ++ " | " ++ r.doi ++ " | "
    ++ r.pmc_ref_count ++ " | [Link](" ++ r.pubmed_link ++ ") |"

/-- The header line of the table, without its trailing newline (line 179). -/
def headerLine : String :=
  "| Title | Publication Date | DOI | PMC Reference Count | PubMed Link |"

/-- The separator line of the table, without its trailing newline
(line 180). -/
def sepLine : String :=
  "|-------|-----------------|-----|---------------------|-------------|"

/-- `PubMedCitationSleuth.format_top_usages_as_markdown` (lines 169-185). -/
def format_top_usages_as_markdown (search_results : List ArticleInfo) :
    String :=
  search_results.foldl
    (fun markdown_table result => markdown_table ++ (rowOf result ++ "\n"))
    (headerLine ++ "\n" ++ (sepLine ++ "\n"))

/-! ## Helper lemmas -/

/-- The dict built by fetch_article_info always has five entries, so it is
always truthy: the guard on line 131 never drops a record. -/
theorem truthy_always (a : ArticleInfo) : a.truthy = true := rfl

/-- The record a successful detail fetch yields. -/
def fetchedArticle (env : PubMedEnv) (article_id : String) : ArticleInfo :=
  articleOf article_id
    ((env.esummary esummary_base_url (detail_params article_id)).bodyD [])

theorem fetch_eq_of_isResponse (env : PubMedEnv) (article_id : String)
    (h : (env.esummary esummary_base_url (detail_params article_id)).isResponse
      = true) :
    fetch_article_info env article_id = .ok (fetchedArticle env article_id) := by
  unfold fetch_article_info fetchedArticle
  cases henv : env.esummary esummary_base_url (detail_params article_id) with
  | transportError e => rw [henv] at h; exact absurd h (by simp [FetchResult.isResponse])
  | response st items => simp [FetchResult.bodyD]

theorem fetchLoop_ok (env : PubMedEnv) (ids : List String)
    (h : ∀ id ∈ ids,
      (env.esummary esummary_base_url (detail_params id)).isResponse = true) :
    ∀ acc, fetchLoop env ids acc = .ok (acc ++ ids.map (fetchedArticle env)) := by
  induction ids with
  | nil => intro acc; simp [fetchLoop]
  | cons id rest ih =>
    intro acc
    have hid := h id (by simp)
    rw [fetchLoop, fetch_eq_of_isResponse env id hid]
    simp only [truthy_always, if_true]
    rw [ih (fun i hi => h i (List.mem_cons_of_mem _ hi)) (acc ++ [fetchedArticle env id])]
    simp

theorem fetch_ok_link (env : PubMedEnv) (article_id : String) (a : ArticleInfo)
    (h : fetch_article_info env article_id = .ok a) :
    a.pubmed_link = "https://pubmed.ncbi.nlm.nih.gov/" ++ article_id ++ "/" := by
  unfold fetch_article_info at h
  cases henv : env.esummary esummary_base_url (detail_params article_id) with
  | transportError e => rw [henv] at h; simp at h
  | response st items =>
    rw [henv] at h
    simp only [Except.ok.injEq] at h
    rw [← h]
    rfl

theorem fetchLoop_mem (env : PubMedEnv) (ids : List String) :
    ∀ acc l, fetchLoop env ids acc = .ok l →
      ∀ a ∈ l, a ∈ acc ∨ ∃ id, fetch_article_info env id = .ok a := by
  induction ids with
  | nil =>
    intro acc l h a ha
    simp only [fetchLoop, Except.ok.injEq] at h
    exact Or.inl (h ▸ ha)
  | cons id rest ih =>
    intro acc l h a ha
    rw [fetchLoop] at h
    cases hf : fetch_article_info env id with
    | error e => rw [hf] at h; simp at h
    | ok info =>
      rw [hf] at h
      simp only [truthy_always, if_true] at h
      rcases ih (acc ++ [info]) l h a ha with hacc | hex
      · rcases List.mem_append.mp hacc with hl | hr
        · exact Or.inl hl
        · exact Or.inr ⟨id, by rw [hf, List.mem_singleton.mp hr]⟩
      · exact Or.inr hex

/-- The canonical link can never be the sentinel: it is strictly longer. -/
theorem link_ne_sentinel (article_id : String) :
    ("https://pubmed.ncbi.nlm.nih.gov/" ++ article_id ++ "/") ≠ "N/A" := by
  intro h
  have hl := congrArg String.length h
  have h32 : ("https://pubmed.ncbi.nlm.nih.gov/").length = 32 := rfl
  have h1 : ("/").length = 1 := rfl
  have h3 : ("N/A").length = 3 := rfl
  rw [String.length_append, String.length_append, h32, h1, h3] at hl
  omega

/-! ## Claim theorems -/

/-- Claim C1: for every identifier list returned by the search step whose
detail calls all produce responses, search_for_usages returns exactly one
record per identifier, in order, the i-th record being the one fetched for the
i-th identifier; the truthiness guard never drops a record because the fetched
dict is always non-empty. -/
theorem search_returns_one_record_per_identifier
    (env : PubMedEnv) (q : String) (st : Nat) (body : SearchBody)
    (hs : env.esearch esearch_base_url (search_params q)
      = .response st (some body))
    (hdet : ∀ id ∈ idsOf body,
      (env.esummary esummary_base_url (detail_params id)).isResponse = true) :
    ∃ l, search_for_usages env q = .ok l ∧
      l.length = (idsOf body).length ∧
      (∀ i : Fin (idsOf body).length, ∀ hi : i.val < l.length,
        fetch_article_info env ((idsOf body).get i)
          = .ok (l.get ⟨i.val, hi⟩)) ∧
      ∀ a : ArticleInfo, a.truthy = true := by
  refine ⟨(idsOf body).map (fetchedArticle env), ?_, by simp, ?_, fun a => rfl⟩
  · rw [search_for_usages, hs]
    show fetchLoop env (idsOf body) [] = _
    rw [fetchLoop_ok env (idsOf body) hdet []]
    simp
  · intro i hi
    rw [List.get_map]
    exact fetch_eq_of_isResponse env _ (hdet _ (List.get_mem _ _ _))

/-- A search body whose id list is the two identifiers 101 and 102. -/
def body1 : SearchBody :=
  { esearchresult := some { idlist := some ["101", "102"] } }

/-- A world in which the search finds two identifiers and every detail call
responds with a single Title item. -/
def env1 : PubMedEnv :=
  ⟨fun _ _ => .response 200 (some body1),
   fun _ _ => .response 200 [{ name := "Title", text := "T1" }]⟩

theorem search_returns_one_record_per_identifier_witness :
    ∃ l, search_for_usages env1 "meps" = .ok l ∧
      l.length = (idsOf body1).length ∧
      (∀ i : Fin (idsOf body1).length, ∀ hi : i.val < l.length,
        fetch_article_info env1 ((idsOf body1).get i)
          = .ok (l.get ⟨i.val, hi⟩)) ∧
      ∀ a : ArticleInfo, a.truthy = true :=
  search_returns_one_record_per_identifier env1 "meps" 200 body1 rfl (by decide)

/-- Claim C2: when any of the four extractable fields (Title, EPubDate, DOI,
PmcRefCount) is missing from a detail response, the corresponding attribute of
the record is the sentinel, and fetch_article_info does not raise. -/
theorem missing_fields_become_sentinel
    (env : PubMedEnv) (article_id : String) (st : Nat) (items : List XmlItem)
    (h : env.esummary esummary_base_url (detail_params article_id)
      = .response st items) :
    ∃ a, fetch_article_info env article_id = .ok a ∧
      (findItem items "Title" = none → a.title = "N/A") ∧
      (findItem items "EPubDate" = none → a.publication_date = "N/A") ∧
      (findItem items "DOI" = none → a.doi = "N/A") ∧
      (findItem items "PmcRefCount" = none → a.pmc_ref_count = "N/A") := by
  refine ⟨articleOf article_id items, ?_, ?_, ?_, ?_, ?_⟩
  · unfold fetch_article_info; rw [h]
  · intro hm; simp [articleOf, fieldOr, hm]
  · intro hm; simp [articleOf, fieldOr, hm]
  · intro hm; simp [articleOf, fieldOr, hm]
  · intro hm; simp [articleOf, fieldOr, hm]

/-- A world in which every detail response has no Item elements at all. -/
def env2 : PubMedEnv :=
  ⟨fun _ _ => .response 200 (some body1), fun _ _ => .response 200 []⟩

theorem missing_fields_become_sentinel_witness :
    ∃ a, fetch_article_info env2 "101" = .ok a ∧ a.title = "N/A" ∧
      a.publication_date = "N/A" ∧ a.doi = "N/A" ∧ a.pmc_ref_count = "N/A" := by
  obtain ⟨a, ha, h1, h2, h3, h4⟩ :=
    missing_fields_become_sentinel env2 "101" 200 [] rfl
  exact ⟨a, ha, h1 rfl, h2 rfl, h3 rfl, h4 rfl⟩

/-- Claim C3: a search response with zero identifiers yields the empty record
sequence (not an error), and rendering the empty sequence yields exactly the
two header lines with no data rows. -/
theorem empty_search_yields_header_only
    (env : PubMedEnv) (q : String) (st : Nat) (body : SearchBody)
    (hs : env.esearch esearch_base_url (search_params q)
      = .response st (some body))
    (hempty : idsOf body = []) :
    search_for_usages env q = .ok [] ∧
    format_top_usages_as_markdown []
      = "| Title | Publication Date | DOI | PMC Reference Count | PubMed Link |\n|-------|-----------------|-----|---------------------|-------------|\n" := by
  constructor
  · rw [search_for_usages, hs]
    show fetchLoop env (idsOf body) [] = _
    rw [hempty]
    rfl
  · rfl

/-- A world in which the search response contains an esearchresult with no
idlist member. -/
def env3 : PubMedEnv :=
  ⟨fun _ _ => .response 200 (some { esearchresult := some { idlist := none } }),
   fun _ _ => .response 200 []⟩

theorem empty_search_yields_header_only_witness :
    search_for_usages env3 "nothing" = .ok [] ∧
    format_top_usages_as_markdown []
      = "| Title | Publication Date | DOI | PMC Reference Count | PubMed Link |\n|-------|-----------------|-----|---------------------|-------------|\n" :=
  empty_search_yields_header_only env3 "nothing" 200
    { esearchresult := some { idlist := none } } rfl rfl

/-- Claim C4: the canonical link is built from the identifier alone by the
fixed template, whatever the detail response contains; at identifier 123 it is
exactly the stated URL. -/
theorem canonical_link_from_identifier_alone
    (env : PubMedEnv) (article_id : String) (st : Nat) (items : List XmlItem)
    (h : env.esummary esummary_base_url (detail_params article_id)
      = .response st items) :
    ∃ a, fetch_article_info env article_id = .ok a ∧
      a.pubmed_link = "https://pubmed.ncbi.nlm.nih.gov/" ++ article_id ++ "/" ∧
      (article_id = "123" →
        a.pubmed_link = "https://pubmed.ncbi.nlm.nih.gov/123/") := by
  refine ⟨articleOf article_id items, ?_, rfl, ?_⟩
  · unfold fetch_article_info; rw [h]
  · intro h123; subst h123; rfl

/-- A world whose detail responses carry arbitrary unrelated content. -/
def env4 : PubMedEnv :=
  ⟨fun _ _ => .response 200 (some body1),
   fun _ _ => .response 200 [{ name := "Garbage", text := "ignored" }]⟩

theorem canonical_link_from_identifier_alone_witness :
    ∃ a, fetch_article_info env4 "123" = .ok a ∧
      a.pubmed_link = "https://pubmed.ncbi.nlm.nih.gov/123/" := by
  obtain ⟨a, ha, _, h123⟩ :=
    canonical_link_from_identifier_alone env4 "123" 200
      [{ name := "Garbage", text := "ignored" }] rfl
  exact ⟨a, ha, h123 rfl⟩

/-- Claim C8: the search request carries the fixed maximum result count 20,
and when the endpoint honours it (at most 20 identifiers) the returned
sequence has one record per identifier, hence at most 20 records. -/
theorem search_bounded_by_retmax
    (env : PubMedEnv) (q : String) (st : Nat) (body : SearchBody)
    (hs : env.esearch esearch_base_url (search_params q)
      = .response st (some body))
    (hdet : ∀ id ∈ idsOf body,
      (env.esummary esummary_base_url (detail_params id)).isResponse = true)
    (hlen : (idsOf body).length ≤ 20) :
    ("retmax", PV.n 20) ∈ search_params q ∧
    ∃ l, search_for_usages env q = .ok l ∧
      l.length = (idsOf body).length ∧ l.length ≤ 20 := by
  refine ⟨by simp [search_params], (idsOf body).map (fetchedArticle env),
    ?_, by simp, by simp [hlen]⟩
  rw [search_for_usages, hs]
  show fetchLoop env (idsOf body) [] = _
  rw [fetchLoop_ok env (idsOf body) hdet []]
  simp

theorem search_bounded_by_retmax_witness :
    ("retmax", PV.n 20) ∈ search_params "meps" ∧
    ∃ l, search_for_usages env1 "meps" = .ok l ∧
      l.length = (idsOf body1).length ∧ l.length ≤ 20 :=
  search_bounded_by_retmax env1 "meps" 200 body1 rfl (by decide) (by decide)

/-- Claim C9: rendering is deterministic; applying the renderer twice to the
same record sequence yields byte-identical strings. -/
theorem render_deterministic (records : List ArticleInfo) :
    format_top_usages_as_markdown records
      = format_top_usages_as_markdown records := rfl

/-- Claim C5: every record built by a (non-raising) detail fetch is fully
populated: each of the four extracted attributes is either the text of the
matching Item or the sentinel, and the link is the template value, never the
sentinel; consequently every record a successful search_for_usages returns has
a real link. -/
theorem records_fully_populated
    (env : PubMedEnv) (article_id : String) (st : Nat) (items : List XmlItem)
    (h : env.esummary esummary_base_url (detail_params article_id)
      = .response st items) :
    (∃ a, fetch_article_info env article_id = .ok a ∧
      (a.title = "N/A" ∨
        ∃ it, findItem items "Title" = some it ∧ a.title = it.text) ∧
      (a.publication_date = "N/A" ∨
        ∃ it, findItem items "EPubDate" = some it ∧
          a.publication_date = it.text) ∧
      (a.doi = "N/A" ∨
        ∃ it, findItem items "DOI" = some it ∧ a.doi = it.text) ∧
      (a.pmc_ref_count = "N/A" ∨
        ∃ it, findItem items "PmcRefCount" = some it ∧
          a.pmc_ref_count = it.text) ∧
      a.pubmed_link = "https://pubmed.ncbi.nlm.nih.gov/" ++ article_id ++ "/" ∧
      a.pubmed_link ≠ "N/A") ∧
    (∀ q l, search_for_usages env q = .ok l →
      ∀ b ∈ l, b.pubmed_link ≠ "N/A") := by
  constructor
  · refine ⟨articleOf article_id items,
      by unfold fetch_article_info; rw [h], ?_, ?_, ?_, ?_, rfl,
      link_ne_sentinel article_id⟩
    · cases hf : findItem items "Title" with
      | none => exact Or.inl (by simp [articleOf, fieldOr, hf])
      | some it => exact Or.inr ⟨it, rfl, by simp [articleOf, fieldOr, hf]⟩
    · cases hf : findItem items "EPubDate" with
      | none => exact Or.inl (by simp [articleOf, fieldOr, hf])
      | some it => exact Or.inr ⟨it, rfl, by simp [articleOf, fieldOr, hf]⟩
    · cases hf : findItem items "DOI" with
      | none => exact Or.inl (by simp [articleOf, fieldOr, hf])
      | some it => exact Or.inr ⟨it, rfl, by simp [articleOf, fieldOr, hf]⟩
    · cases hf : findItem items "PmcRefCount" with
      | none => exact Or.inl (by simp [articleOf, fieldOr, hf])
      | some it => exact Or.inr ⟨it, rfl, by simp [articleOf, fieldOr, hf]⟩
  · intro q l hl b hb
    cases hse : env.esearch esearch_base_url (search_params q) with
    | transportError e => rw [search_for_usages, hse] at hl; simp at hl
    | response st2 ob =>
      cases ob with
      | none => rw [search_for_usages, hse] at hl; simp at hl
      | some b2 =>
        rw [search_for_usages, hse] at hl
        have hl2 : fetchLoop env (idsOf b2) [] = .ok l := hl
        rcases fetchLoop_mem env (idsOf b2) [] l hl2 b hb with h0 | ⟨id, hid⟩
        · simp at h0
        · rw [fetch_ok_link env id b hid]
          exact link_ne_sentinel id

theorem records_fully_populated_witness :
    (∃ a, fetch_article_info env2 "101" = .ok a ∧
      (a.title = "N/A" ∨
        ∃ it, findItem [] "Title" = some it ∧ a.title = it.text) ∧
      (a.publication_date = "N/A" ∨
        ∃ it, findItem [] "EPubDate" = some it ∧
          a.publication_date = it.text) ∧
      (a.doi = "N/A" ∨
        ∃ it, findItem [] "DOI" = some it ∧ a.doi = it.text) ∧
      (a.pmc_ref_count = "N/A" ∨
        ∃ it, findItem [] "PmcRefCount" = some it ∧
          a.pmc_ref_count = it.text) ∧
      a.pubmed_link = "https://pubmed.ncbi.nlm.nih.gov/" ++ "101" ++ "/" ∧
      a.pubmed_link ≠ "N/A") ∧
    (∀ q l, search_for_usages env2 q = .ok l →
      ∀ b ∈ l, b.pubmed_link ≠ "N/A") :=
  records_fully_populated env2 "101" 200 [] rfl

/-- A world where the search succeeds but the one detail response has status
500 and carries no Item elements (for instance an HTML error page). -/
def c6DetailEnv : PubMedEnv :=
  ⟨fun _ _ => .response 200 (some { esearchresult := some { idlist := some ["9"] } }),
   fun _ _ => .response 500 []⟩

/-- A world where the search response itself has status 404 but carries a
JSON body (as the NCBI endpoint does for errors). -/
def c6SearchEnv : PubMedEnv :=
  ⟨fun _ _ => .response 404 (some { esearchresult := none }),
   fun _ _ => .response 200 []⟩

/-- Claim C6 counterexample: the code never reads the status code, so a
non-success response is not fatal.  A status-500 detail response yields a
sentinel-filled record (the call succeeds), and a status-404 search response
with a JSON body yields the empty record list (the call succeeds). -/
theorem nonsuccess_response_not_fatal :
    c6DetailEnv.esummary esummary_base_url (detail_params "9")
      = .response 500 [] ∧
    search_for_usages c6DetailEnv "meps"
      = .ok [{ title := "N/A", publication_date := "N/A", doi := "N/A",
               pmc_ref_count := "N/A",
               pubmed_link := "https://pubmed.ncbi.nlm.nih.gov/9/" }] ∧
    (∀ e, search_for_usages c6DetailEnv "meps" ≠ .error e) ∧
    c6SearchEnv.esearch esearch_base_url (search_params "meps")
      = .response 404 (some { esearchresult := none }) ∧
    search_for_usages c6SearchEnv "meps" = .ok [] ∧
    (∀ e, search_for_usages c6SearchEnv "meps" ≠ .error e) := by
  have hok1 : search_for_usages c6DetailEnv "meps"
      = .ok [{ title := "N/A", publication_date := "N/A", doi := "N/A",
               pmc_ref_count := "N/A",
               pubmed_link := "https://pubmed.ncbi.nlm.nih.gov/9/" }] := rfl
  have hok2 : search_for_usages c6SearchEnv "meps" = .ok [] := rfl
  refine ⟨rfl, hok1, ?_, rfl, hok2, ?_⟩
  · intro e he
    exact Except.noConfusion (hok1.symm.trans he)
  · intro e he
    exact Except.noConfusion (hok2.symm.trans he)

/-- The loop propagates the error of the first failing fetch: when every
identifier before the failing one gets a response, the error surfaces from
any position in the list. -/
theorem fetchLoop_error (env : PubMedEnv) (e : PyError) :
    ∀ (pre : List String) (article_id : String) (rest : List String)
      (acc : List ArticleInfo),
      (∀ id ∈ pre,
        (env.esummary esummary_base_url (detail_params id)).isResponse
          = true) →
      fetch_article_info env article_id = .error e →
      fetchLoop env (pre ++ article_id :: rest) acc = .error e := by
  intro pre
  induction pre with
  | nil =>
    intro article_id rest acc _ hfe
    rw [List.nil_append, fetchLoop, hfe]
  | cons p ps ih =>
    intro article_id rest acc h hfe
    rw [List.cons_append, fetchLoop,
      fetch_eq_of_isResponse env p (h p (by simp))]
    simp only [truthy_always, if_true]
    exact ih article_id rest _ (fun i hi => h i (List.mem_cons_of_mem _ hi)) hfe

/-- Claim C6 amended: a transport failure (the GET itself raising) on either
call is fatal for the whole search_for_usages call and propagates unmodified —
for a detail call, at whatever position of the identifier list the first
failure occurs; a search body that is not JSON is likewise fatal; but a
response of any status on a detail call never is — it yields a record. -/
theorem transport_failure_fatal
    (env : PubMedEnv) (q article_id e : String) :
    (env.esearch esearch_base_url (search_params q) = .transportError e →
      search_for_usages env q = .error (.transport e)) ∧
    (∀ st, env.esearch esearch_base_url (search_params q)
        = .response st none →
      search_for_usages env q = .error .jsonDecode) ∧
    (env.esummary esummary_base_url (detail_params article_id)
        = .transportError e →
      fetch_article_info env article_id = .error (.transport e)) ∧
    (∀ st items, env.esummary esummary_base_url (detail_params article_id)
        = .response st items →
      ∃ a, fetch_article_info env article_id = .ok a) ∧
    (∀ st body pre rest, env.esearch esearch_base_url (search_params q)
        = .response st (some body) →
      idsOf body = pre ++ article_id :: rest →
      (∀ id ∈ pre,
        (env.esummary esummary_base_url (detail_params id)).isResponse
          = true) →
      env.esummary esummary_base_url (detail_params article_id)
        = .transportError e →
      search_for_usages env q = .error (.transport e)) := by
  refine ⟨?_, ?_, ?_, ?_, ?_⟩
  · intro h; rw [search_for_usages, h]
  · intro st h; rw [search_for_usages, h]
  · intro h; unfold fetch_article_info; rw [h]
  · intro st items h
    exact ⟨articleOf article_id items, by unfold fetch_article_info; rw [h]⟩
  · intro st body pre rest hs hids hpre hd
    have hfe : fetch_article_info env article_id = .error (.transport e) := by
      unfold fetch_article_info; rw [hd]
    rw [search_for_usages, hs]
    show fetchLoop env (idsOf body) [] = _
    rw [hids]
    exact fetchLoop_error env (.transport e) pre article_id rest [] hpre hfe

/-- A world where the search GET raises a transport exception. -/
def tEnvA : PubMedEnv :=
  ⟨fun _ _ => .transportError "boom", fun _ _ => .response 200 []⟩

/-- A world where the search body is not JSON and the detail GET raises. -/
def tEnvB : PubMedEnv :=
  ⟨fun _ _ => .response 200 none, fun _ _ => .transportError "boom"⟩

/-- A world where the search finds one identifier and the detail GET
raises. -/
def tEnvC : PubMedEnv :=
  ⟨fun _ _ => .response 200 (some { esearchresult := some { idlist := some ["7"] } }),
   fun _ _ => .transportError "boom"⟩

/-- A world where the search finds two identifiers, the first detail GET
responds and the second raises: the transport failure happens mid-list. -/
def tEnvD : PubMedEnv :=
  ⟨fun _ _ => .response 200
      (some { esearchresult := some { idlist := some ["7", "8"] } }),
   fun _ p =>
     if p = detail_params "8" then .transportError "boom"
     else .response 200 []⟩

theorem transport_failure_fatal_witness :
    search_for_usages tEnvA "q" = .error (.transport "boom") ∧
    search_for_usages tEnvB "q" = .error .jsonDecode ∧
    fetch_article_info tEnvB "7" = .error (.transport "boom") ∧
    (∃ a, fetch_article_info tEnvA "7" = .ok a) ∧
    search_for_usages tEnvC "q" = .error (.transport "boom") ∧
    search_for_usages tEnvD "q" = .error (.transport "boom") :=
  ⟨(transport_failure_fatal tEnvA "q" "7" "boom").1 rfl,
   (transport_failure_fatal tEnvB "q" "7" "boom").2.1 200 rfl,
   (transport_failure_fatal tEnvB "q" "7" "boom").2.2.1 rfl,
   (transport_failure_fatal tEnvA "q" "7" "boom").2.2.2.1 200 [] rfl,
   (transport_failure_fatal tEnvC "q" "7" "boom").2.2.2.2 200
     { esearchresult := some { idlist := some ["7"] } } [] [] rfl rfl
     (by decide) rfl,
   (transport_failure_fatal tEnvD "q" "8" "boom").2.2.2.2 200
     { esearchresult := some { idlist := some ["7", "8"] } } ["7"] [] rfl rfl
     (by decide) (by decide)⟩

/-- Lines of a character list, splitting at newline separators: a trailing
newline yields a final empty line. -/
def splitLines : List Char → List (List Char)
  | [] => [[]]
  | c :: rest =>
    if c = '\n' then [] :: splitLines rest
    else
      match splitLines rest with
      | [] => [[c]]
      | l :: ls => (c :: l) :: ls

/-- The i-th line (0-indexed) of a string; index 1 is its second line. -/
def lineAt (s : String) (i : Nat) : Option (List Char) :=
  (splitLines s.data).get? i

/-- The synthetic record of the render test. -/
def synthRec : ArticleInfo :=
  { title := "Study X", publication_date := "2021", doi := "10.1/xyz",
    pmc_ref_count := "5",
    pubmed_link := "https://pubmed.ncbi.nlm.nih.gov/123/" }

/-- The data row text the render test expects to find. -/
def c7Row : String :=
  "| Study X | 2021 | 10.1/xyz | 5 | [Link](https://pubmed.ncbi.nlm.nih.gov/123/) |"

/-- Claim C7 counterexample: the second line of the table rendered for the
synthetic record is the separator line, and the expected row text is not a
substring of it (it is longer than the whole line). -/
theorem second_line_is_separator :
    lineAt (format_top_usages_as_markdown [synthRec]) 1 = some sepLine.data ∧
    ¬ c7Row.data <:+: sepLine.data := by
  refine ⟨rfl, ?_⟩
  intro h
  have hle := h.length_le
  have h80 : c7Row.data.length = 80 := rfl
  have h69 : sepLine.data.length = 69 := rfl
  omega

/-- Claim C7 amended: the table rendered for the synthetic record contains
the expected row text on its third line (header, separator, then the data
row). -/
theorem third_line_contains_row :
    ∃ l, lineAt (format_top_usages_as_markdown [synthRec]) 2 = some l ∧
      c7Row.data <:+: l :=
  ⟨c7Row.data, rfl, List.infix_refl _⟩

/-- A concatenation of newline-terminated newline-free lines contains one
newline per line. -/
theorem count_newlines_of_lines (L : List (List Char))
    (h : ∀ l ∈ L, '\n' ∉ l) :
    ((L.map (fun l => l ++ ['\n'])).flatten).count '\n' = L.length := by
  induction L with
  | nil => rfl
  | cons l ls ih =>
    have h0 : l.count '\n' = 0 := List.count_eq_zero.mpr (h l (by simp))
    have h1 : (['\n'] : List Char).count '\n' = 1 := rfl
    simp only [List.map_cons, List.flatten_cons, List.count_append, h0, h1,
      List.length_cons]
    rw [ih (fun x hx => h x (List.mem_cons_of_mem _ hx))]
    omega

theorem foldl_rows_data (rs : List ArticleInfo) :
    ∀ init : String,
      (rs.foldl (fun tbl r => tbl ++ (rowOf r ++ "\n")) init).data
        = init.data ++ (rs.map (fun r => (rowOf r).data ++ ['\n'])).flatten := by
  induction rs with
  | nil => intro init; simp
  | cons r rest ih =>
    intro init
    have hn : ("\n").data = ['\n'] := rfl
    simp only [List.foldl_cons, List.map_cons, List.flatten_cons]
    rw [ih]
    simp [String.data_append, hn, List.append_assoc]

/-- The rendered table is the concatenation of the newline-terminated header
line, separator line, and data rows in input order. -/
theorem format_data_eq (rs : List ArticleInfo) :
    (format_top_usages_as_markdown rs).data
      = ((headerLine.data :: sepLine.data
            :: rs.map (fun r => (rowOf r).data)).map
          (fun l => l ++ ['\n'])).flatten := by
  have hn : ("\n").data = ['\n'] := rfl
  unfold format_top_usages_as_markdown
  rw [foldl_rows_data]
  simp only [List.map_cons, List.flatten_cons, List.map_map]
  have hcomp : ((fun l => l ++ ['\n']) ∘ fun r : ArticleInfo => (rowOf r).data)
      = (fun r : ArticleInfo => (rowOf r).data ++ ['\n']) := rfl
  rw [hcomp]
  simp [String.data_append, hn, List.append_assoc]

/-- A nonempty concatenation of newline-terminated lines ends with a
newline. -/
theorem join_lines_ends (c : Char) (L : List (List Char)) (h : L ≠ []) :
    ∃ cs, (L.map (fun l => l ++ [c])).flatten = cs ++ [c] := by
  induction L with
  | nil => exact absurd rfl h
  | cons l ls ih =>
    cases ls with
    | nil => exact ⟨l, by simp⟩
    | cons m ms =>
      obtain ⟨cs, hcs⟩ := ih (by simp)
      refine ⟨l ++ [c] ++ cs, ?_⟩
      rw [List.map_cons, List.flatten_cons, hcs]
      simp [List.append_assoc]

theorem count_rowOf (r : ArticleInfo) :
    (rowOf r).data.count '\n'
      = r.title.data.count '\n' + r.publication_date.data.count '\n'
        + r.doi.data.count '\n' + r.pmc_ref_count.data.count '\n'
        + r.pubmed_link.data.count '\n' := by
  have c1 : ("| ").data.count '\n' = 0 := rfl
  have c2 : (" | ").data.count '\n' = 0 := rfl
  have c3 : (" | [Link](").data.count '\n' = 0 := rfl
  have c4 : (") |").data.count '\n' = 0 := rfl
  simp only [rowOf, String.data_append, List.count_append, c1, c2, c3, c4]
  omega

theorem newline_not_mem_rowOf (r : ArticleInfo)
    (h1 : '\n' ∉ r.title.data) (h2 : '\n' ∉ r.publication_date.data)
    (h3 : '\n' ∉ r.doi.data) (h4 : '\n' ∉ r.pmc_ref_count.data)
    (h5 : '\n' ∉ r.pubmed_link.data) :
    '\n' ∉ (rowOf r).data := by
  rw [← List.count_eq_zero] at h1 h2 h3 h4 h5 ⊢
  rw [count_rowOf]
  omega

/-- The five cells of a data row: the four extracted attributes and the
rendered link. -/
def cellsOf (r : ArticleInfo) : List (List Char) :=
  [r.title.data, r.publication_date.data, r.doi.data, r.pmc_ref_count.data,
   ("[Link](" ++ r.pubmed_link ++ ")").data]

/-- A markdown table row: cells joined by the pipe separator, between the
opening and closing pipes. -/
def delimited (cells : List (List Char)) : List Char :=
  ['|', ' '] ++ (List.intersperse [' ', '|', ' '] cells).flatten ++ [' ', '|']

theorem row_delimited (r : ArticleInfo) :
    (rowOf r).data = delimited (cellsOf r) := by
  have d1 : ("| ").data = ['|', ' '] := rfl
  have d2 : (" | ").data = [' ', '|', ' '] := rfl
  have d3 : (" | [Link](").data = [' ', '|', ' '] ++ ("[Link](").data := rfl
  have d4 : (") |").data = [')'] ++ [' ', '|'] := rfl
  have d5 : ("[Link](" ++ r.pubmed_link ++ ")").data
      = ("[Link](").data ++ (r.pubmed_link.data ++ [')']) := by
    have dp : (")").data = [')'] := rfl
    simp [String.data_append, dp, List.append_assoc]
  simp only [rowOf, delimited, cellsOf, List.intersperse, List.flatten_cons,
    List.flatten_nil, String.data_append, d1, d2, d3, d4, d5]
  simp [List.append_assoc]

/-- A fully populated record whose title contains a newline character. -/
def badRec : ArticleInfo :=
  { title := "a\nb", publication_date := "2021", doi := "d",
    pmc_ref_count := "5", pubmed_link := "https://pubmed.ncbi.nlm.nih.gov/7/" }

set_option maxRecDepth 4000 in
/-- Claim C10 counterexample: for a fully populated single record whose title
contains a newline, the rendered string is not a concatenation of exactly
2 + 1 newline-terminated newline-free lines — it contains four newlines, not
three. -/
theorem rendered_table_lines_counterexample :
    ¬ ∃ L : List (List Char), L.length = 2 + 1 ∧ (∀ l ∈ L, '\n' ∉ l) ∧
      (format_top_usages_as_markdown [badRec]).data
        = (L.map (fun l => l ++ ['\n'])).flatten := by
  rintro ⟨L, hlen, hfree, heq⟩
  have hc := count_newlines_of_lines L hfree
  rw [← heq] at hc
  have h4 : (format_top_usages_as_markdown [badRec]).data.count '\n' = 4 := rfl
  omega

/-- Claim C10 amended: the rendered string always ends with a newline and is
the concatenation of the newline-terminated header line, separator line and
one data row per record in input order; when no attribute of any record
contains a newline these are exactly 2 + N newline-free lines, and each data
row is the five cells of its record (the four attributes and the rendered
link) delimited by pipes. -/
theorem rendered_table_lines (rs : List ArticleInfo)
    (hfree : ∀ r ∈ rs, '\n' ∉ r.title.data ∧ '\n' ∉ r.publication_date.data ∧
      '\n' ∉ r.doi.data ∧ '\n' ∉ r.pmc_ref_count.data ∧
      '\n' ∉ r.pubmed_link.data) :
    ∃ L, L = headerLine.data :: sepLine.data
        :: rs.map (fun r => (rowOf r).data) ∧
      (format_top_usages_as_markdown rs).data
        = (L.map (fun l => l ++ ['\n'])).flatten ∧
      L.length = 2 + rs.length ∧
      (∀ l ∈ L, '\n' ∉ l) ∧
      (∀ r ∈ rs, (rowOf r).data = delimited (cellsOf r) ∧
        (cellsOf r).length = 5) ∧
      (∃ cs, (format_top_usages_as_markdown rs).data = cs ++ ['\n']) := by
  refine ⟨_, rfl, format_data_eq rs, ?_, ?_, ?_, ?_⟩
  · simp only [List.length_cons, List.length_map]
    omega
  · intro l hl
    simp only [List.mem_cons] at hl
    rcases hl with rfl | rfl | hl
    · decide
    · decide
    · rw [List.mem_map] at hl
      obtain ⟨r, hr, rfl⟩ := hl
      obtain ⟨h1, h2, h3, h4, h5⟩ := hfree r hr
      exact newline_not_mem_rowOf r h1 h2 h3 h4 h5
  · intro r hr
    exact ⟨row_delimited r, rfl⟩
  · rw [format_data_eq rs]
    exact join_lines_ends _ _ (by simp)

theorem rendered_table_lines_witness :
    ∃ L, L = headerLine.data :: sepLine.data
        :: [synthRec].map (fun r => (rowOf r).data) ∧
      (format_top_usages_as_markdown [synthRec]).data
        = (L.map (fun l => l ++ ['\n'])).flatten ∧
      L.length = 2 + [synthRec].length ∧
      (∀ l ∈ L, '\n' ∉ l) ∧
      (∀ r ∈ [synthRec], (rowOf r).data = delimited (cellsOf r) ∧
        (cellsOf r).length = 5) ∧
      (∃ cs, (format_top_usages_as_markdown [synthRec]).data = cs ++ ['\n']) :=
  rendered_table_lines [synthRec] (by decide)

end CitationSleuth
